import Mathlib

/-!
Shallow embedding of the todo-list client in
src/todo-frontend/src/app/To-do/page.tsx.

The component keeps five pieces of React state (todos, newTodoTitle,
editingTodo, loading, error); we embed them as one record, AppState, and
every handler (fetchTodos, addTodo, toggleTodoCompleted, deleteTodo,
startEditing, updateTodo, the Cancel Edit onClick) as a pure transition
on that record.  A handler that performs a network round trip takes the
settled response as an explicit argument, so each handler is a function
of the pre-state and the observed outcome.

JSON values are modelled by the inductive Json below; JavaScript
truthiness, String() coercion and JSON.stringify are modelled on it
faithfully.  Numbers are modelled as Int (none of the verified
behaviour depends on float formatting).  A parsed JS object is a list
of key/value pairs with the keys assumed distinct, as JSON.parse
produces.
-/

/-- A JSON value, as produced by response.json() or fed to JSON.stringify. -/
inductive Json where
  | null : Json
  | bool (b : Bool) : Json
  | num (n : Int) : Json
  | str (s : String) : Json
  | arr (elems : List Json) : Json
  | obj (fields : List (String × Json)) : Json
deriving Repr, BEq

/-- JavaScript truthiness of a JSON value: null, false, 0 and the empty
string are falsy; every array and object is truthy. -/
def Json.truthy : Json → Bool
  | .null => false
  | .bool b => b
  | .num n => n != 0
  | .str s => s != ""
  | .arr _ => true
  | .obj _ => true

mutual

/-- JavaScript String() coercion of a JSON value (the message a thrown
new Error(v) carries when v is not a string). -/
def Json.jsToString : Json → String
  | .null => "null"
  | .bool b => cond b "true" "false"
  | .num n => toString n
  | .str s => s
  | .arr elems => Json.jsArrayToString elems
  | .obj _ => "[object Object]"

/-- Array.prototype.toString: elements joined with commas, null rendered
as the empty string inside an array. -/
def Json.jsArrayToString : List Json → String
  | [] => ""
  | [j] => Json.jsElemToString j
  | j :: rest => Json.jsElemToString j ++ "," ++ Json.jsArrayToString rest

/-- A single element under Array.prototype.join: null becomes empty. -/
def Json.jsElemToString : Json → String
  | .null => ""
  | j => Json.jsToString j

end

/-- One hexadecimal digit, lower case, as in JSON escape sequences. -/
def hexDigit (n : Nat) : Char :=
  if n < 10 then Char.ofNat (48 + n) else Char.ofNat (87 + n)

/-- JSON.stringify escaping of a single character inside a string. -/
def escapeJsonChar (c : Char) : String :=
  if c = '\"' then "\\\""
  else if c = '\\' then "\\\\"
  else if c = '\n' then "\\n"
  else if c = '\r' then "\\r"
  else if c = '\t' then "\\t"
  else if c.toNat = 8 then "\\b"
  else if c.toNat = 12 then "\\f"
  else if c.toNat < 32 then
    "\\u00" ++ String.mk [hexDigit (c.toNat / 16), hexDigit (c.toNat % 16)]
  else String.mk [c]

/-- JSON.stringify escaping of a whole string (without the quotes). -/
def escapeJsonString (s : String) : String :=
  String.join (s.data.map escapeJsonChar)

mutual

/-- JSON.stringify of a JSON value. -/
def Json.stringify : Json → String
  | .null => "null"
  | .bool b => cond b "true" "false"
  | .num n => toString n
  | .str s => "\"" ++ escapeJsonString s ++ "\""
  | .arr elems => "[" ++ Json.stringifyElems elems ++ "]"
  | .obj fields => "\x7b" ++ Json.stringifyFields fields ++ "\x7d"

/-- Comma-separated serialization of array elements. -/
def Json.stringifyElems : List Json → String
  | [] => ""
  | [j] => Json.stringify j
  | j :: rest => Json.stringify j ++ "," ++ Json.stringifyElems rest

/-- Comma-separated serialization of object fields, in insertion order. -/
def Json.stringifyFields : List (String × Json) → String
  | [] => ""
  | [(k, v)] => "\"" ++ escapeJsonString k ++ "\":" ++ Json.stringify v
  | (k, v) :: rest =>
      "\"" ++ escapeJsonString k ++ "\":" ++ Json.stringify v ++ "," ++
        Json.stringifyFields rest

end

/-- An argument to JSON.stringify: a JSON-representable value or a JS
function value.  JSON.stringify of a function returns undefined, so a
fetch body built from it is absent. -/
inductive JsValue where
  | json (j : Json) : JsValue
  | jsFunction (name : String) : JsValue
deriving Repr

/-- JSON.stringify on a JsValue: none models the undefined result on a
function, in which case fetch sends no body. -/
def jsonStringifyValue : JsValue → Option String
  | .json j => some j.stringify
  | .jsFunction _ => none

/-- A character the JavaScript String.prototype.trim strips: the ASCII
whitespace and line terminators (the non-ASCII ones do not occur in the
verified behaviour). -/
def isJsWhitespace (c : Char) : Bool :=
  c = ' ' || c = '\t' || c = '\n' || c = '\r' || c.toNat = 11 || c.toNat = 12

/-- Drop the leading whitespace of a character list. -/
def dropLeadingWs : List Char → List Char
  | [] => []
  | c :: cs => if isJsWhitespace c then dropLeadingWs cs else c :: cs

/-- JavaScript String.prototype.trim: strip leading and trailing
whitespace. -/
def jsTrim (s : String) : String :=
  String.mk (dropLeadingWs (dropLeadingWs s.data).reverse).reverse

/-- ASCII byte-uppercasing of one character. -/
def asciiUpperChar (c : Char) : Char :=
  if 97 ≤ c.toNat ∧ c.toNat ≤ 122 then Char.ofNat (c.toNat - 32) else c

/-- ASCII byte-uppercasing of a string, as the fetch specification
applies to method names. -/
def asciiUpper (s : String) : String :=
  String.mk (s.data.map asciiUpperChar)

/-- The Todo interface of the source: id, title, completed. -/
structure Todo where
  id : String
  title : String
  completed : Bool
deriving Repr, DecidableEq

/-- The object literal serialized for a Todo: spread keeps the key order
id, title, completed. -/
def todoToJson (t : Todo) : Json :=
  Json.obj [("id", Json.str t.id), ("title", Json.str t.title),
            ("completed", Json.bool t.completed)]

/-- The five useState slots of the component, as one record. -/
structure AppState where
  todos : List Todo
  newTodoTitle : String
  editingTodo : Option Todo
  loading : Bool
  error : Option String
deriving Repr, DecidableEq

/-- API_BASE_URL from the source. -/
def API_BASE_URL : String := "http://localhost:5000/api/todos"

/-- The message of the error thrown on a non-ok response:
errorData.message when truthy (coerced to a string by new Error),
otherwise the template string with the status.  The Except argument is
the result of response.json() on the error body; its .error case is the
rejection of the parse itself, whose own message propagates.  The same
expression appears verbatim in every handler of the source. -/
def httpErrorMessage (status : Nat) (body : Except String Json) : String :=
  match body with
  | .error m => m
  | .ok errorData =>
    let fallbackMsg := "HTTP error! status: " ++ toString status
    match errorData with
    | .obj fields =>
      match fields.lookup "message" with
      | some m => if m.truthy then m.jsToString else fallbackMsg
      | none => fallbackMsg
    | _ => fallbackMsg

/-- The settled outcome a handler observes when it also reads the
success body.  The source annotates the parsed success body with a
TypeScript type that is not checked at runtime; the success constructor
carries the value under that annotation, so the embedding covers the
executions in which the server honours the documented shape.
httpError models a response whose ok flag is false; by the fetch
specification ok holds exactly for statuses 200-299. -/
inductive FetchOutcome (α : Type) where
  | success (value : α) : FetchOutcome α
  | parseFail (msg : String) : FetchOutcome α
  | httpError (status : Nat) (body : Except String Json) : FetchOutcome α

/-- The settled outcome observed by a handler that never reads the
success body (toggle, update, delete). -/
inductive MutateOutcome where
  | success : MutateOutcome
  | httpError (status : Nat) (body : Except String Json) : MutateOutcome

/-- Statuses for which response.ok is true (the fetch specification). -/
def okStatus (status : Nat) : Prop := 200 ≤ status ∧ status < 300

/-- A MutateOutcome that can come from a real fetch response: a non-ok
response has a status outside 200-299. -/
def MutateOutcome.wf : MutateOutcome → Prop
  | .success => True
  | .httpError status _ => ¬ okStatus status

/-- A request as the fetch call issues it; method is the string passed
in the init object, body the JSON.stringify result (none when the
stringify argument serialized to undefined, in which case no body is
sent). -/
structure Request where
  method : String
  url : String
  body : Option String
deriving Repr, DecidableEq

/-- The fetch specification byte-uppercases a method that
case-insensitively matches one of the six normalized methods; the
source passes the literal string given in each handler. -/
def normalizeMethod (m : String) : String :=
  let upper := asciiUpper m
  if upper = "DELETE" ∨ upper = "GET" ∨ upper = "HEAD" ∨ upper = "OPTIONS"
      ∨ upper = "POST" ∨ upper = "PUT" then upper else m

/-- The method as it goes on the wire. -/
def Request.wireMethod (r : Request) : String := normalizeMethod r.method

/-- fetchTodos: set loading, clear error, GET the collection; on ok,
store the parsed array; on failure, surface the prefixed message;
finally clear loading. -/
def fetchTodos (s : AppState) (r : FetchOutcome (List Todo)) : AppState :=
  let s1 : AppState := { s with loading := true, error := none }
  match r with
  | .success data => { s1 with todos := data, loading := false }
  | .parseFail m =>
      { s1 with error := some ("Failed to load todos: " ++ m), loading := false }
  | .httpError status body =>
      { s1 with error := some ("Failed to load todos: " ++ httpErrorMessage status body),
                loading := false }

/-- addTodo: reject an empty trimmed draft locally; otherwise clear the
error, POST the untrimmed title, and on ok append the server-returned
todo and clear the draft. -/
def addTodo (s : AppState) (r : FetchOutcome Todo) : AppState :=
  if jsTrim s.newTodoTitle = "" then
    { s with error := some "Todo title can\x27t be empty." }
  else
    let s1 : AppState := { s with error := none }
    match r with
    | .success addedTodo =>
        { s1 with todos := s1.todos ++ [addedTodo], newTodoTitle := "" }
    | .parseFail m => { s1 with error := some ("Failed to add todo: " ++ m) }
    | .httpError status body =>
        { s1 with error := some ("Failed to add todo: " ++ httpErrorMessage status body) }

/-- The request addTodo issues, none when validation stops it before the
network; the body serializes the untrimmed draft. -/
def addTodoRequest (s : AppState) : Option Request :=
  if jsTrim s.newTodoTitle = "" then none
  else some { method := "POST", url := API_BASE_URL,
              body := jsonStringifyValue (.json (Json.obj
                        [("title", Json.str s.newTodoTitle)])) }

/-- toggleTodoCompleted: clear the error, PUT the item with completed
inverted, and on ok replace in the collection every entry whose id
equals the toggled item id by the sent payload. -/
def toggleTodoCompleted (s : AppState) (todoToToggle : Todo)
    (r : MutateOutcome) : AppState :=
  let s1 : AppState := { s with error := none }
  let updatedTodo : Todo := { todoToToggle with completed := !todoToToggle.completed }
  match r with
  | .success =>
      { s1 with
        todos := s1.todos.map (fun t => if t.id = todoToToggle.id then updatedTodo else t) }
  | .httpError status body =>
      { s1 with error := some ("Failed to update todo: " ++ httpErrorMessage status body) }

/-- The request toggleTodoCompleted issues. -/
def toggleTodoRequest (todoToToggle : Todo) : Request :=
  { method := "PUT",
    url := API_BASE_URL ++ "/" ++ todoToToggle.id,
    body := jsonStringifyValue (.json (todoToJson
              { todoToToggle with completed := !todoToToggle.completed })) }

/-- deleteTodo: clear the error, DELETE by id; the source re-checks
status 204 inside the non-ok branch before throwing, and on the
non-throwing paths filters out every entry with the given id. -/
def deleteTodo (s : AppState) (id : String) (r : MutateOutcome) : AppState :=
  let s1 : AppState := { s with error := none }
  match r with
  | .success => { s1 with todos := s1.todos.filter (fun t => t.id != id) }
  | .httpError status body =>
      if status ≠ 204 then
        { s1 with error := some ("Failed to delete todo: " ++ httpErrorMessage status body) }
      else
        { s1 with todos := s1.todos.filter (fun t => t.id != id) }

/-- The request deleteTodo issues. -/
def deleteTodoRequest (id : String) : Request :=
  { method := "DELETE", url := API_BASE_URL ++ "/" ++ id, body := none }

/-- startEditing: set the editing target, preload the draft with its
title, clear the error. -/
def startEditing (s : AppState) (todoToEdit : Todo) : AppState :=
  { s with editingTodo := some todoToEdit,
           newTodoTitle := todoToEdit.title,
           error := none }

/-- The Cancel Edit button onClick: clear the editing target and the
draft.  The source does not touch the error slot here. -/
def cancelEdit (s : AppState) : AppState :=
  { s with editingTodo := none, newTodoTitle := "" }

/-- updateTodo: reject locally when no target is set or the trimmed
draft is empty; otherwise clear the error, PUT, and on ok replace in
the collection every entry whose id equals the target id by the locally
built updatedTodo, then leave editing mode and clear the draft. -/
def updateTodo (s : AppState) (r : MutateOutcome) : AppState :=
  match s.editingTodo with
  | none => { s with error := some "Can\x27t update with empty title or no todo selected." }
  | some editing =>
    if jsTrim s.newTodoTitle = "" then
      { s with error := some "Can\x27t update with empty title or no todo selected." }
    else
      let s1 : AppState := { s with error := none }
      let updatedTodo : Todo := { editing with title := jsTrim s.newTodoTitle }
      match r with
      | .success =>
          { s1 with
            todos := s1.todos.map (fun t => if t.id = editing.id then updatedTodo else t),
            editingTodo := none, newTodoTitle := "" }
      | .httpError status body =>
          { s1 with error := some ("Failed to update todo: " ++ httpErrorMessage status body) }

/-- The request updateTodo issues, none when validation stops it.  The
source passes the literal method string Put, and its stringify argument
is updateTodo itself, the handler function, not the updatedTodo object
built just above the call: JSON.stringify of a function is undefined,
so the PUT goes out with no body. -/
def updateTodoRequest (s : AppState) : Option Request :=
  match s.editingTodo with
  | none => none
  | some editing =>
    if jsTrim s.newTodoTitle = "" then none
    else some { method := "Put",
                url := API_BASE_URL ++ "/" ++ editing.id,
                body := jsonStringifyValue (.jsFunction "updateTodo") }

/-- The update request as the spec describes it: PUT to the item id with
the full updated object (target id and completed flag, trimmed draft as
title) as serialized body.  Section 9 of the spec flags the divergence
of the source from this contract. -/
def updateTodoRequestSpec (s : AppState) : Option Request :=
  match s.editingTodo with
  | none => none
  | some editing =>
    if jsTrim s.newTodoTitle = "" then none
    else some { method := "PUT",
                url := API_BASE_URL ++ "/" ++ editing.id,
                body := jsonStringifyValue (.json (todoToJson
                          { editing with title := jsTrim s.newTodoTitle })) }

/-- A nonempty string stays nonempty after appending on the right. -/
theorem string_append_ne_empty (a b : String) (h : a ≠ "") : a ++ b ≠ "" := by
  intro hc
  apply h
  have hlen : (a ++ b).length = 0 := by rw [hc]; rfl
  simp [String.length_append] at hlen
  have h0 : a.length = 0 := hlen.1
  cases a with
  | mk data =>
    cases data with
    | nil => rfl
    | cons c cs => simp [String.length] at h0

/-- A concrete todo used by the concrete instantiations below. -/
def sampleTodo : Todo := { id := "1", title := "buy milk", completed := false }

/-- A second concrete todo with a distinct id. -/
def sampleTodo2 : Todo := { id := "2", title := "walk dog", completed := true }

/-- A concrete state in Editing mode on sampleTodo with a nonempty draft. -/
def editingState : AppState :=
  { todos := [sampleTodo, sampleTodo2], newTodoTitle := "buy bread ",
    editingTodo := some sampleTodo, loading := false, error := none }

/-- Claim C1: in Editing mode on the todo with id 1 and with the
nonempty trimmed draft, the issued update request is a PUT to the item
id, but its body is absent, because the source serializes the handler
function updateTodo instead of the updatedTodo object; the body the
spec prescribes is the serialized full updated todo, so the issued
request differs from the specified one. -/
theorem c1_update_request_serializes_function :
    updateTodoRequest editingState =
      some { method := "Put", url := "http://localhost:5000/api/todos/1", body := none }
    ∧ (updateTodoRequest editingState).map Request.wireMethod = some "PUT"
    ∧ updateTodoRequestSpec editingState =
      some { method := "PUT", url := "http://localhost:5000/api/todos/1",
             body := some "\x7b\"id\":\"1\",\"title\":\"buy bread\",\"completed\":false\x7d" }
    ∧ updateTodoRequest editingState ≠ updateTodoRequestSpec editingState := by
  refine ⟨by decide, by decide, by decide, by decide⟩

/-- A concrete Editing-mode state whose error slot is occupied. -/
def c2State : AppState := { editingState with error := some "boom" }

/-- Claim C2 counterexample: in an Editing-mode state with a pending
error, cancelEdit leaves the ErrorChannel occupied instead of clearing
it. -/
theorem c2_cancel_edit_keeps_error_cex :
    c2State.editingTodo = some sampleTodo
    ∧ (cancelEdit c2State).error = some "boom"
    ∧ (cancelEdit c2State).error ≠ none := by
  refine ⟨rfl, rfl, by decide⟩

/-- Claim C2 (amended): for every state in Editing mode, cancelEdit
returns the mode to Adding, clears the Draft to empty and leaves the
Collection unchanged, but leaves the ErrorChannel unchanged rather than
clearing it. -/
theorem c2_cancel_edit_amended (s : AppState) (t : Todo)
    (_h : s.editingTodo = some t) :
    (cancelEdit s).editingTodo = none ∧ (cancelEdit s).newTodoTitle = ""
    ∧ (cancelEdit s).todos = s.todos ∧ (cancelEdit s).error = s.error :=
  ⟨rfl, rfl, rfl, rfl⟩

/-- Concrete instantiation of the amended C2 theorem. -/
theorem c2_cancel_edit_amended_witness :
    c2State.editingTodo = some sampleTodo
    ∧ ((cancelEdit c2State).editingTodo = none
      ∧ (cancelEdit c2State).newTodoTitle = ""
      ∧ (cancelEdit c2State).todos = c2State.todos
      ∧ (cancelEdit c2State).error = c2State.error) :=
  ⟨rfl, c2_cancel_edit_amended c2State sampleTodo rfl⟩

/-- Claim C3: for every operation and failing outcome (non-success
status or unparsable success body), the Collection is exactly as
before and the ErrorChannel holds a non-empty message; and for every
outcome of every operation, store mutation and error reporting never
both happen.  The create and update parts hold under the guard that
lets them reach the network; the remove part uses the fetch invariant
that a non-ok status lies outside 200-299 (hence is not 204). -/
theorem c3_failure_atomicity (s : AppState) (X : Todo) (id m : String)
    (status : Nat) (body : Except String Json)
    (hok : ¬ okStatus status) :
    ((fetchTodos s (.parseFail m)).todos = s.todos
      ∧ ∃ e, (fetchTodos s (.parseFail m)).error = some e ∧ e ≠ "")
    ∧ ((fetchTodos s (.httpError status body)).todos = s.todos
      ∧ ∃ e, (fetchTodos s (.httpError status body)).error = some e ∧ e ≠ "")
    ∧ (jsTrim s.newTodoTitle ≠ "" →
        (addTodo s (.parseFail m)).todos = s.todos
        ∧ ∃ e, (addTodo s (.parseFail m)).error = some e ∧ e ≠ "")
    ∧ (jsTrim s.newTodoTitle ≠ "" →
        (addTodo s (.httpError status body)).todos = s.todos
        ∧ ∃ e, (addTodo s (.httpError status body)).error = some e ∧ e ≠ "")
    ∧ ((toggleTodoCompleted s X (.httpError status body)).todos = s.todos
      ∧ ∃ e, (toggleTodoCompleted s X (.httpError status body)).error = some e ∧ e ≠ "")
    ∧ (∀ t, s.editingTodo = some t → jsTrim s.newTodoTitle ≠ "" →
        (updateTodo s (.httpError status body)).todos = s.todos
        ∧ ∃ e, (updateTodo s (.httpError status body)).error = some e ∧ e ≠ "")
    ∧ ((deleteTodo s id (.httpError status body)).todos = s.todos
      ∧ ∃ e, (deleteTodo s id (.httpError status body)).error = some e ∧ e ≠ "")
    ∧ (∀ rf : FetchOutcome (List Todo),
        (fetchTodos s rf).error = none ∨ (fetchTodos s rf).todos = s.todos)
    ∧ (∀ ra : FetchOutcome Todo,
        (addTodo s ra).error = none ∨ (addTodo s ra).todos = s.todos)
    ∧ (∀ rm : MutateOutcome,
        (toggleTodoCompleted s X rm).error = none
        ∨ (toggleTodoCompleted s X rm).todos = s.todos)
    ∧ (∀ rm : MutateOutcome,
        (updateTodo s rm).error = none ∨ (updateTodo s rm).todos = s.todos)
    ∧ (∀ rm : MutateOutcome,
        (deleteTodo s id rm).error = none ∨ (deleteTodo s id rm).todos = s.todos) := by
  have h204 : status ≠ 204 := by
    intro hc
    exact hok (by rw [hc]; exact ⟨by omega, by omega⟩)
  refine ⟨⟨rfl, ?_⟩, ⟨rfl, ?_⟩, ?_, ?_, ⟨rfl, ?_⟩, ?_, ⟨?_, ?_⟩, ?_, ?_, ?_, ?_, ?_⟩
  · exact ⟨_, rfl, string_append_ne_empty "Failed to load todos: " _ (by decide)⟩
  · exact ⟨_, rfl, string_append_ne_empty "Failed to load todos: " _ (by decide)⟩
  · intro ht
    constructor
    · simp [addTodo, ht]
    · simp only [addTodo]
      rw [if_neg ht]
      exact ⟨_, rfl, string_append_ne_empty "Failed to add todo: " _ (by decide)⟩
  · intro ht
    constructor
    · simp [addTodo, ht]
    · simp only [addTodo]
      rw [if_neg ht]
      exact ⟨_, rfl, string_append_ne_empty "Failed to add todo: " _ (by decide)⟩
  · exact ⟨_, rfl, string_append_ne_empty "Failed to update todo: " _ (by decide)⟩
  · intro t ht hne
    constructor
    · simp [updateTodo, ht, hne]
    · simp only [updateTodo, ht]
      rw [if_neg hne]
      exact ⟨_, rfl, string_append_ne_empty "Failed to update todo: " _ (by decide)⟩
  · simp only [deleteTodo, if_pos h204]
  · simp only [deleteTodo, if_pos h204]
    exact ⟨_, rfl, string_append_ne_empty "Failed to delete todo: " _ (by decide)⟩
  · intro rf; cases rf <;> simp [fetchTodos]
  · intro ra
    by_cases ht : jsTrim s.newTodoTitle = ""
    · right; simp [addTodo, ht]
    · cases ra <;> simp [addTodo, ht]
  · intro rm; cases rm <;> simp [toggleTodoCompleted]
  · intro rm
    cases he : s.editingTodo with
    | none => right; simp [updateTodo, he]
    | some t =>
      by_cases ht : jsTrim s.newTodoTitle = ""
      · right; simp [updateTodo, he, ht]
      · cases rm <;> simp [updateTodo, he, ht]
  · intro rm
    cases rm with
    | success => left; simp [deleteTodo]
    | httpError st b =>
      by_cases h2 : st ≠ 204
      · right; simp [deleteTodo, if_pos h2]
      · left; simp [deleteTodo, if_neg h2]

/-- Concrete instantiation of the C3 atomicity theorem: a 500 with a
message body on the update path leaves the Collection untouched. -/
theorem c3_failure_atomicity_witness :
    ¬ okStatus 500
    ∧ (updateTodo editingState (.httpError 500
        (Except.ok (Json.obj [("message", Json.str "db down")])))).todos
      = editingState.todos := by
  have hok : ¬ okStatus 500 := fun h => absurd h.2 (by decide)
  refine ⟨hok, ?_⟩
  exact ((c3_failure_atomicity editingState sampleTodo "2" "parse error" 500
    (Except.ok (Json.obj [("message", Json.str "db down")]))
    hok).2.2.2.2.2.1 sampleTodo rfl (by decide)).1

/-- The parsed 500 error body whose message field is the empty string. -/
def emptyMessageBody : Except String Json :=
  Except.ok (Json.obj [("message", Json.str "")])

/-- Claim C4 counterexample: an update failing with status 500 and the
body holding the string message "" surfaces the generic fallback, not
the prefixed message, because the source tests errorData.message for
truthiness and the empty string is falsy. -/
theorem c4_empty_string_message_cex :
    (updateTodo editingState (.httpError 500 emptyMessageBody)).error
      = some "Failed to update todo: HTTP error! status: 500"
    ∧ (updateTodo editingState (.httpError 500 emptyMessageBody)).error
      ≠ some "Failed to update todo: " := by
  refine ⟨by decide, by decide⟩

/-- Claim C4 (amended): on a non-success status, every operation
surfaces the operation-description prefix followed by the parsed error
message; that message is the message field itself when the body parses
to an object holding a non-empty string message, and the generic
status-coded fallback when the message field is absent or its value is
falsy (empty string, 0, false, null). -/
theorem c4_error_message_amended (s : AppState) (X t : Todo) (id msg : String)
    (status : Nat) (fields fieldsFalsy fieldsAbsent : List (String × Json))
    (mFalsy : Json)
    (hmsg : fields.lookup "message" = some (Json.str msg)) (hne : msg ≠ "")
    (hfalsy : fieldsFalsy.lookup "message" = some mFalsy)
    (hfv : mFalsy.truthy = false)
    (habs : fieldsAbsent.lookup "message" = none) :
    httpErrorMessage status (Except.ok (Json.obj fields)) = msg
    ∧ httpErrorMessage status (Except.ok (Json.obj fieldsFalsy))
      = "HTTP error! status: " ++ toString status
    ∧ httpErrorMessage status (Except.ok (Json.obj fieldsAbsent))
      = "HTTP error! status: " ++ toString status
    ∧ (∀ body : Except String Json,
        (fetchTodos s (.httpError status body)).error
          = some ("Failed to load todos: " ++ httpErrorMessage status body))
    ∧ (∀ body : Except String Json, jsTrim s.newTodoTitle ≠ "" →
        (addTodo s (.httpError status body)).error
          = some ("Failed to add todo: " ++ httpErrorMessage status body))
    ∧ (∀ body : Except String Json,
        (toggleTodoCompleted s X (.httpError status body)).error
          = some ("Failed to update todo: " ++ httpErrorMessage status body))
    ∧ (∀ body : Except String Json, s.editingTodo = some t →
        jsTrim s.newTodoTitle ≠ "" →
        (updateTodo s (.httpError status body)).error
          = some ("Failed to update todo: " ++ httpErrorMessage status body))
    ∧ (∀ body : Except String Json, status ≠ 204 →
        (deleteTodo s id (.httpError status body)).error
          = some ("Failed to delete todo: " ++ httpErrorMessage status body)) := by
  have hmain : httpErrorMessage status (Except.ok (Json.obj fields)) = msg := by
    simp [httpErrorMessage, hmsg, Json.truthy, Json.jsToString, hne]
  have hfall : httpErrorMessage status (Except.ok (Json.obj fieldsFalsy))
      = "HTTP error! status: " ++ toString status := by
    simp [httpErrorMessage, hfalsy, hfv]
  have habsfall : httpErrorMessage status (Except.ok (Json.obj fieldsAbsent))
      = "HTTP error! status: " ++ toString status := by
    simp [httpErrorMessage, habs]
  refine ⟨hmain, hfall, habsfall, ?_, ?_, ?_, ?_, ?_⟩
  · intro body; rfl
  · intro body ht
    simp only [addTodo]
    rw [if_neg ht]
  · intro body; rfl
  · intro body he ht
    simp only [updateTodo, he]
    rw [if_neg ht]
  · intro body h204
    simp only [deleteTodo]
    rw [if_pos h204]

/-- Concrete instantiation of the amended C4 theorem: spec scenario 5,
a PUT answered 500 with message db down surfaces the prefixed message,
while the same status with the falsy empty-string message surfaces the
generic fallback. -/
theorem c4_error_message_amended_witness :
    ([("message", Json.str "db down")].lookup "message" = some (Json.str "db down"))
    ∧ ("db down" ≠ "")
    ∧ ([("message", Json.str "")].lookup "message" = some (Json.str ""))
    ∧ ((Json.str "").truthy = false)
    ∧ (([] : List (String × Json)).lookup "message" = none)
    ∧ (updateTodo editingState (.httpError 500
        (Except.ok (Json.obj [("message", Json.str "db down")])))).error
      = some "Failed to update todo: db down"
    ∧ (updateTodo editingState (.httpError 500
        (Except.ok (Json.obj [("message", Json.str "")])))).error
      = some "Failed to update todo: HTTP error! status: 500" := by
  have h := c4_error_message_amended editingState sampleTodo sampleTodo "2" "db down"
    500 [("message", Json.str "db down")] [("message", Json.str "")] []
    (Json.str "") rfl (by decide) rfl (by decide) rfl
  refine ⟨rfl, by decide, rfl, by decide, rfl, ?_, ?_⟩
  · have e1 := h.2.2.2.2.2.2.1
      (Except.ok (Json.obj [("message", Json.str "db down")])) rfl (by decide)
    rw [e1, h.1]; decide
  · have e2 := h.2.2.2.2.2.2.1
      (Except.ok (Json.obj [("message", Json.str "")])) rfl (by decide)
    rw [e2, h.2.1]; decide

/-- A concrete Adding-mode state whose draft is all whitespace. -/
def blankDraftState : AppState :=
  { todos := [sampleTodo], newTodoTitle := "   ", editingTodo := none,
    loading := false, error := none }

/-- Claim C5: when the trimmed Draft is empty, submit in Adding mode
issues no request, sets the ErrorChannel to the validation message, and
leaves the Collection and the Draft unchanged whatever outcome the
network could have produced. -/
theorem c5_empty_draft_validation (s : AppState) (r : FetchOutcome Todo)
    (h : jsTrim s.newTodoTitle = "") :
    addTodoRequest s = none
    ∧ addTodo s r = { s with error := some "Todo title can\x27t be empty." }
    ∧ (addTodo s r).todos = s.todos
    ∧ (addTodo s r).newTodoTitle = s.newTodoTitle
    ∧ (addTodo s r).error = some "Todo title can\x27t be empty."
    ∧ "Todo title can\x27t be empty." ≠ "" := by
  refine ⟨by simp [addTodoRequest, h], by simp [addTodo, h], by simp [addTodo, h],
    by simp [addTodo, h], by simp [addTodo, h], by decide⟩

/-- Concrete instantiation of the C5 theorem on an all-whitespace draft. -/
theorem c5_empty_draft_validation_witness :
    jsTrim blankDraftState.newTodoTitle = ""
    ∧ addTodoRequest blankDraftState = none
    ∧ (addTodo blankDraftState (.success sampleTodo2)).todos = blankDraftState.todos := by
  refine ⟨by decide, ?_, ?_⟩
  · exact (c5_empty_draft_validation blankDraftState (.success sampleTodo2) (by decide)).1
  · exact (c5_empty_draft_validation blankDraftState (.success sampleTodo2) (by decide)).2.2.1

/-- Claim C6: a successful fetchAll stores the server array as the
Collection element-for-element in the same order, clears loading and
leaves the ErrorChannel empty. -/
theorem c6_fetch_success_replaces (s : AppState) (data : List Todo) :
    (fetchTodos s (.success data)).todos = data
    ∧ (fetchTodos s (.success data)).loading = false
    ∧ (fetchTodos s (.success data)).error = none :=
  ⟨rfl, rfl, rfl⟩

/-- Claim C7: a successful create appends exactly the server-returned
todo at the end of the Collection, keeping every prior element in
place, and clears the Draft. -/
theorem c7_create_appends (s : AppState) (t : Todo)
    (h : jsTrim s.newTodoTitle ≠ "") :
    (addTodo s (.success t)).todos = s.todos ++ [t]
    ∧ (addTodo s (.success t)).todos.length = s.todos.length + 1
    ∧ (∀ i : Nat, i < s.todos.length →
        (addTodo s (.success t)).todos[i]? = s.todos[i]?)
    ∧ (addTodo s (.success t)).newTodoTitle = "" := by
  have hbase : (addTodo s (.success t)).todos = s.todos ++ [t] := by
    simp only [addTodo]
    rw [if_neg h]
  refine ⟨hbase, ?_, ?_, ?_⟩
  · rw [hbase]; simp
  · intro i hi
    rw [hbase, List.getElem?_append, if_pos hi]
  · simp only [addTodo]
    rw [if_neg h]

/-- Concrete instantiation of the C7 theorem. -/
theorem c7_create_appends_witness :
    jsTrim blankDraftState.newTodoTitle = "" ∧ jsTrim "pay rent" ≠ ""
    ∧ (addTodo { blankDraftState with newTodoTitle := "pay rent" }
        (.success sampleTodo2)).todos = [sampleTodo, sampleTodo2] := by
  refine ⟨by decide, by decide, ?_⟩
  exact (c7_create_appends { blankDraftState with newTodoTitle := "pay rent" }
    sampleTodo2 (by decide)).1

/-- Claim C8: toggling an item X of the Collection sends a PUT to the
item id whose body is X with the completed flag inverted, and on
success the Collection keeps its length, every position holding an
entry with X's id now holds the sent payload, and every other position
is unchanged. -/
theorem c8_toggle_request_and_replace (s : AppState) (X : Todo)
    (_hmem : X ∈ s.todos) :
    toggleTodoRequest X
      = { method := "PUT", url := API_BASE_URL ++ "/" ++ X.id,
          body := some (Json.stringify (todoToJson
                    { X with completed := !X.completed })) }
    ∧ (toggleTodoCompleted s X .success).todos.length = s.todos.length
    ∧ (∀ i : Nat, (toggleTodoCompleted s X .success).todos[i]?
        = (s.todos[i]?).map
            (fun t => if t.id = X.id then { X with completed := !X.completed } else t))
    ∧ (toggleTodoCompleted s X .success).error = none := by
  refine ⟨rfl, by simp [toggleTodoCompleted], ?_, rfl⟩
  intro i
  simp [toggleTodoCompleted, List.getElem?_map]

/-- Concrete instantiation of the C8 theorem. -/
theorem c8_toggle_request_and_replace_witness :
    sampleTodo ∈ editingState.todos
    ∧ toggleTodoRequest sampleTodo
      = { method := "PUT", url := "http://localhost:5000/api/todos/1",
          body := some "\x7b\"id\":\"1\",\"title\":\"buy milk\",\"completed\":true\x7d" }
    ∧ (toggleTodoCompleted editingState sampleTodo .success).todos[0]?
      = some { sampleTodo with completed := true } := by
  have h := c8_toggle_request_and_replace editingState sampleTodo (by decide)
  refine ⟨by decide, ?_, ?_⟩
  · rw [h.1]; decide
  · rw [h.2.2.1 0]; decide

/-- Claim C9: toggle, remove and fetchAll leave the Draft and the
EditingTarget (hence the Adding/Editing mode) unchanged on every
outcome; only the create and update submissions and the explicit
startEdit and cancelEdit actions touch them. -/
theorem c9_toggle_delete_frame (s : AppState) (X : Todo) (id : String) :
    (∀ r : MutateOutcome,
        (toggleTodoCompleted s X r).newTodoTitle = s.newTodoTitle
        ∧ (toggleTodoCompleted s X r).editingTodo = s.editingTodo)
    ∧ (∀ r : MutateOutcome,
        (deleteTodo s id r).newTodoTitle = s.newTodoTitle
        ∧ (deleteTodo s id r).editingTodo = s.editingTodo)
    ∧ (∀ r : FetchOutcome (List Todo),
        (fetchTodos s r).newTodoTitle = s.newTodoTitle
        ∧ (fetchTodos s r).editingTodo = s.editingTodo) := by
  refine ⟨?_, ?_, ?_⟩
  · intro r; cases r <;> exact ⟨rfl, rfl⟩
  · intro r
    cases r with
    | success => exact ⟨rfl, rfl⟩
    | httpError st b =>
      by_cases h2 : st = 204
      · simp [deleteTodo, h2]
      · simp [deleteTodo, h2]
  · intro r; cases r <;> exact ⟨rfl, rfl⟩

/-- A todo sharing the id of sampleTodo, to exercise duplicate ids. -/
def sampleTodoDup : Todo := { id := "1", title := "pay rent", completed := true }

/-- A state whose Collection has two entries with the same id and whose
editing target carries that id. -/
def dupState : AppState :=
  { todos := [sampleTodo, sampleTodo2, sampleTodoDup],
    newTodoTitle := "new title", editingTodo := some sampleTodo,
    loading := false, error := none }

/-- Claim C10: the per-id operations act on all matching occurrences: a
successful toggle or update rewrites every position whose entry has the
target id (length and positions preserved, other positions unchanged),
and a successful remove deletes every entry with the target id,
keeping the rest in order. -/
theorem c10_per_id_ops_hit_all_occurrences (s : AppState) (X e : Todo)
    (id : String)
    (he : s.editingTodo = some e) (ht : jsTrim s.newTodoTitle ≠ "") :
    (toggleTodoCompleted s X .success).todos.length = s.todos.length
    ∧ (∀ i : Nat, ∀ t, s.todos[i]? = some t → t.id = X.id →
        (toggleTodoCompleted s X .success).todos[i]?
          = some { X with completed := !X.completed })
    ∧ (∀ i : Nat, ∀ t, s.todos[i]? = some t → t.id ≠ X.id →
        (toggleTodoCompleted s X .success).todos[i]? = some t)
    ∧ (updateTodo s .success).todos.length = s.todos.length
    ∧ (∀ i : Nat, ∀ t, s.todos[i]? = some t → t.id = e.id →
        (updateTodo s .success).todos[i]?
          = some { e with title := jsTrim s.newTodoTitle })
    ∧ (∀ i : Nat, ∀ t, s.todos[i]? = some t → t.id ≠ e.id →
        (updateTodo s .success).todos[i]? = some t)
    ∧ (deleteTodo s id .success).todos = s.todos.filter (fun t => t.id != id)
    ∧ (∀ t, t ∈ (deleteTodo s id .success).todos → t.id ≠ id) := by
  have hupd : (updateTodo s .success).todos
      = s.todos.map (fun t => if t.id = e.id then { e with title := jsTrim s.newTodoTitle } else t) := by
    simp only [updateTodo, he]
    rw [if_neg ht]
  refine ⟨by simp [toggleTodoCompleted], ?_, ?_, ?_, ?_, ?_, rfl, ?_⟩
  · intro i t hit hid
    simp [toggleTodoCompleted, List.getElem?_map, hit, hid]
  · intro i t hit hid
    simp [toggleTodoCompleted, List.getElem?_map, hit, hid]
  · rw [hupd]; simp
  · intro i t hit hid
    rw [hupd]
    simp [List.getElem?_map, hit, hid]
  · intro i t hit hid
    rw [hupd]
    simp [List.getElem?_map, hit, hid]
  · intro t htmem
    have := List.of_mem_filter htmem
    simpa using this

/-- Concrete instantiation of the C10 theorem on a Collection with a
duplicate id: both occurrences are rewritten, both are removed. -/
theorem c10_per_id_ops_witness :
    dupState.editingTodo = some sampleTodo
    ∧ jsTrim dupState.newTodoTitle ≠ ""
    ∧ (toggleTodoCompleted dupState sampleTodo .success).todos[0]?
      = some { sampleTodo with completed := true }
    ∧ (toggleTodoCompleted dupState sampleTodo .success).todos[2]?
      = some { sampleTodo with completed := true }
    ∧ (updateTodo dupState .success).todos[2]?
      = some { sampleTodo with title := "new title" }
    ∧ (deleteTodo dupState "1" .success).todos = [sampleTodo2] := by
  have h := c10_per_id_ops_hit_all_occurrences dupState sampleTodo sampleTodo "1"
    rfl (by decide)
  refine ⟨rfl, by decide, ?_, ?_, ?_, ?_⟩
  · rw [h.2.1 0 sampleTodo rfl rfl]; decide
  · rw [h.2.1 2 sampleTodoDup rfl rfl]; decide
  · rw [h.2.2.2.2.1 2 sampleTodoDup rfl rfl]; decide
  · rw [h.2.2.2.2.2.2.1]; decide
